import Mathlib

/-!
Verification of the StreamHubGBA popup-defense and playback subsystem.

This file gives a shallow embedding of:
* the `ClickShield` interaction trust gate (`src/src/utils/adBlocker.ts`,
  lines 970-1327),
* the `window.open` interception wrapper of the global ad blocker
  (`overrideWindowOpen` / `createFakeWindow` in the ultra-aggressive ad
  blocker module),
* the bounded network-retry logic of the HLS player error handler
  (`src/src/components/common/HLSPlayer.tsx`, lines 653-689),
and proves the claims of the spec about them.

Times are JavaScript `Date.now()` millisecond values, modelled as `Int`
(JS subtraction of timestamps can in principle go negative, so we keep
signed arithmetic).  `Math.random()` is modelled as an explicit rational
parameter `rand` with the convention `0 ≤ rand < 1`.
-/

namespace ClickShield

/-- Timing profile, one record of the `TIMINGS` table of `ClickShield`
(`adBlocker.ts` lines 1016-1037).  Durations are in milliseconds (`Int`);
counts and trust amounts are `Nat` as in the source they are non-negative
integer literals. -/
structure ShieldTimings where
  pageLoadGracePeriod : Int
  iframeLoadGracePeriod : Int
  minTimeBetweenClicks : Int
  afterPopupReblock : Int
  firstClicksToBlock : Nat
  trustIncrement : Nat
  trustDecrement : Nat
  maxTrustForBlocking : Nat
deriving Repr, DecidableEq

/-- Source constant table `TIMINGS.desktop`. -/
def desktopTimings : ShieldTimings where
  pageLoadGracePeriod := 5000
  iframeLoadGracePeriod := 5000
  minTimeBetweenClicks := 450
  afterPopupReblock := 45000
  firstClicksToBlock := 6
  trustIncrement := 6
  trustDecrement := 75
  maxTrustForBlocking := 60

/-- Source constant table `TIMINGS.mobile`. -/
def mobileTimings : ShieldTimings where
  pageLoadGracePeriod := 7000
  iframeLoadGracePeriod := 7000
  minTimeBetweenClicks := 600
  afterPopupReblock := 60000
  firstClicksToBlock := 8
  trustIncrement := 4
  trustDecrement := 85
  maxTrustForBlocking := 70

/-- Configuration record `ClickShieldConfig` (callbacks dropped: they do not
affect shield state). -/
structure ClickShieldConfig where
  enabled : Bool
  isMobile : Bool
deriving Repr, DecidableEq

/-- The timing profile selected everywhere in the class by
`this.config.isMobile ? this.TIMINGS.mobile : this.TIMINGS.desktop`. -/
def timingsFor (cfg : ClickShieldConfig) : ShieldTimings :=
  if cfg.isMobile then mobileTimings else desktopTimings

/-- State record `ClickShieldState` (`adBlocker.ts` lines 984-1009). -/
structure ClickShieldState where
  pageLoadTime : Int
  iframeLoadTime : Int
  lastClickTime : Int
  lastPopupDetectedTime : Int
  paranoiaUntil : Int
  totalClicks : Nat
  blockedClicks : Nat
  allowedClicks : Nat
  trustLevel : Nat
  isShieldActive : Bool
  isInDangerousPeriod : Bool
  userHasInteractedWithVideo : Bool
deriving Repr, DecidableEq

/-- The `ClickShield` constructor body (lines 1039-1062): all timestamps are
`Date.now()` at construction, counters and trust start at zero. -/
def initState (now : Int) : ClickShieldState where
  pageLoadTime := now
  iframeLoadTime := now
  lastClickTime := 0
  lastPopupDetectedTime := 0
  paranoiaUntil := 0
  totalClicks := 0
  blockedClicks := 0
  allowedClicks := 0
  trustLevel := 0
  isShieldActive := true
  isInDangerousPeriod := true
  userHasInteractedWithVideo := false

/-- Method `onIframeLoad` (lines 1064-1073): re-timestamps the iframe load, resets
the click count and the interacted flag.  Nothing else is touched. -/
def onIframeLoad (s : ClickShieldState) (now : Int) : ClickShieldState :=
  { s with
    iframeLoadTime := now
    totalClicks := 0
    userHasInteractedWithVideo := false }

/-- Method `onPopupDetected` (lines 1078-1106): records the popup time, extends the
paranoia window by `afterPopupReblock`, hard-resets trust to 0 and re-arms
the shield. -/
def onPopupDetected (cfg : ClickShieldConfig) (s : ClickShieldState)
    (now : Int) : ClickShieldState :=
  { s with
    lastPopupDetectedTime := now
    paranoiaUntil := now + (timingsFor cfg).afterPopupReblock
    trustLevel := 0
    isShieldActive := true }

/-- Method `enterParanoia` (lines 1111-1133): like a popup detection but with a
caller-chosen duration, defaulting to `afterPopupReblock * 1.5` (the
multiplication is exact on the source constants, so integer arithmetic
`* 3 / 2` reproduces it). -/
def enterParanoia (cfg : ClickShieldConfig) (s : ClickShieldState)
    (durationMs : Option Int) (now : Int) : ClickShieldState :=
  let effectiveDuration := durationMs.getD ((timingsFor cfg).afterPopupReblock * 3 / 2)
  { s with
    lastPopupDetectedTime := now
    paranoiaUntil := now + effectiveDuration
    trustLevel := 0
    isShieldActive := true }

/-- The probabilistic-block threshold computed in RULE 6 of
`shouldBlockClick`: `blockProbability = 1 - trustLevel / maxTrustForBlocking`. -/
def blockProbability (t : ShieldTimings) (trust : Nat) : ℚ :=
  1 - (trust : ℚ) / (t.maxTrustForBlocking : ℚ)

/-- Method `shouldBlockClick` (lines 1138-1203), the decision function
of the gate (what the spec calls `decide()`).  `now` is the `Date.now()` read at the top of the
function; `rand` is the `Math.random()` draw of RULE 6.  The rules appear
in source order; each `return true` is a `block`. -/
def shouldBlockClick (cfg : ClickShieldConfig) (s : ClickShieldState)
    (now : Int) (rand : ℚ) : Bool :=
  if cfg.enabled = false then false
  else if now - s.pageLoadTime < (timingsFor cfg).pageLoadGracePeriod then true
  else if now - s.iframeLoadTime < (timingsFor cfg).iframeLoadGracePeriod then true
  else if s.totalClicks < (timingsFor cfg).firstClicksToBlock then true
  else if 0 < s.lastClickTime ∧ now - s.lastClickTime < (timingsFor cfg).minTimeBetweenClicks then true
  else if 0 < s.lastPopupDetectedTime ∧ now - s.lastPopupDetectedTime < (timingsFor cfg).afterPopupReblock then true
  else if s.trustLevel < (timingsFor cfg).maxTrustForBlocking then
    if s.trustLevel < 15 then true
    else if rand < blockProbability (timingsFor cfg) s.trustLevel * (1 / 2 : ℚ) then true
    else false
  else false

/-- The record returned by `handleClick`. -/
structure ClickResult where
  shouldBlock : Bool
  shouldAllowTemporarily : Bool
deriving Repr, DecidableEq

/-- Method `handleClick` (lines 1208-1249).  It first increments `totalClicks` and
overwrites `lastClickTime` with its own `Date.now()` read (`now`), then
calls `shouldBlockClick`, whose separate `Date.now()` read is `nowDecide`
(in a real run `now ≤ nowDecide` and they differ by at most a few
milliseconds, as both happen inside one synchronous call).  On block it
increments `blockedClicks` and re-arms the shield; on allow it increments
`allowedClicks`, marks the video interacted, raises trust by
`trustIncrement` clamped at 100 and drops the shield. -/
def handleClick (cfg : ClickShieldConfig) (s : ClickShieldState)
    (now nowDecide : Int) (rand : ℚ) : ClickShieldState × ClickResult :=
  let s1 := { s with totalClicks := s.totalClicks + 1, lastClickTime := now }
  if shouldBlockClick cfg s1 nowDecide rand then
    ({ s1 with blockedClicks := s1.blockedClicks + 1, isShieldActive := true },
     { shouldBlock := true, shouldAllowTemporarily := false })
  else
    ({ s1 with
        allowedClicks := s1.allowedClicks + 1
        userHasInteractedWithVideo := true
        trustLevel := min 100 (s1.trustLevel + (timingsFor cfg).trustIncrement)
        isShieldActive := false },
     { shouldBlock := false, shouldAllowTemporarily := true })

/-- Method `enableShield` (lines 1267-1270). -/
def enableShield (s : ClickShieldState) : ClickShieldState :=
  { s with isShieldActive := true }

/-- Method `disableShield` (lines 1272-1275). -/
def disableShield (s : ClickShieldState) : ClickShieldState :=
  { s with isShieldActive := false }

/-- The timeout body of `reenableShieldAfterDelay` (lines 1280-1288):
re-arms the shield only while trust is still below 50. -/
def reenableShield (s : ClickShieldState) : ClickShieldState :=
  if s.trustLevel < 50 then { s with isShieldActive := true } else s

/-- The inputs of one `handleClick` call: the two `Date.now()` reads and the
`Math.random()` draw. -/
structure ClickInput where
  now : Int
  nowDecide : Int
  rand : ℚ
deriving DecidableEq

/-- Run a sequence of `handleClick` calls, keeping only the evolving state. -/
def runClicks (cfg : ClickShieldConfig) (s : ClickShieldState)
    (cs : List ClickInput) : ClickShieldState :=
  cs.foldl (fun st c => (handleClick cfg st c.now c.nowDecide c.rand).1) s

/-- One call of the public mutating API of the shield. -/
inductive Op where
  | iframeLoad (now : Int)
  | popupDetected (now : Int)
  | paranoia (durationMs : Option Int) (now : Int)
  | click (c : ClickInput)
  | shieldOn
  | shieldOff
  | reenable
deriving DecidableEq

/-- State transition of one API call. -/
def applyOp (cfg : ClickShieldConfig) (s : ClickShieldState) : Op → ClickShieldState
  | .iframeLoad now => onIframeLoad s now
  | .popupDetected now => onPopupDetected cfg s now
  | .paranoia d now => enterParanoia cfg s d now
  | .click c => (handleClick cfg s c.now c.nowDecide c.rand).1
  | .shieldOn => enableShield s
  | .shieldOff => disableShield s
  | .reenable => reenableShield s

end ClickShield

namespace AdBlocker

/-- ASCII lower-casing of a character list (the model of JavaScript
case-insensitive matching; all patterns involved are ASCII). -/
def lowerChars (l : List Char) : List Char :=
  l.map Char.toLower

/-- True when `pat` occurs at the start of `l`. -/
def charsStartWith (pat l : List Char) : Bool :=
  pat.isPrefixOf l

/-- True when `pat` occurs at the end of `l`. -/
def charsEndWith (pat l : List Char) : Bool :=
  pat.reverse.isPrefixOf l.reverse

/-- True when `pat` occurs as a prefix of some suffix of `l`, i.e. as a
contiguous substring (the model of a JavaScript `/.../.test(url)` on a
plain-text pattern). -/
def listContainsSub (pat : List Char) : List Char → Bool
  | [] => pat.isEmpty
  | c :: rest => pat.isPrefixOf (c :: rest) || listContainsSub pat rest

/-- One entry of the `suspiciousPatterns` regex list: either a plain
substring test or an end-anchored suffix test. -/
inductive UrlPattern where
  | sub (pat : String)
  | ends (pat : String)
deriving DecidableEq

/-- The `suspiciousPatterns` array of `isSuspiciousURL`, in source order.
All of the regexes in the source are case-insensitive plain-text tests except
the first, `ads?[_\-.]`, which expands to the six substrings
`ad_ ad- ad. ads_ ads- ads.`, and the two end-anchored ones
`\.apk$` and `\.exe$`. -/
def suspiciousPatterns : List UrlPattern :=
  [ .sub "ad_", .sub "ad-", .sub "ad.", .sub "ads_", .sub "ads-", .sub "ads.",
    .sub "popup", .sub "click", .sub "track", .sub "redirect",
    .sub "doubleclick", .sub "googlesyndication", .sub "adservice",
    .sub "banner", .sub "promo", .sub "affiliate", .sub "betting",
    .sub "casino", .sub "rajbets", .sub "download", .sub "setup.exe",
    .ends ".apk", .ends ".exe" ]

/-- Case-insensitive pattern test (the `/i` flag): the URL is lower-cased,
the patterns are already lower case. -/
def matchesUrlPattern (url : String) : UrlPattern → Bool
  | .sub p => listContainsSub p.toList (lowerChars url.toList)
  | .ends p => charsEndWith p.toList (lowerChars url.toList)

/-- Predicate `isSuspiciousURL` from the ad-blocker module: empty or `about:blank`
URLs, any match of the suspicious-pattern list, and `blob:`/`data:` URLs
are suspicious. -/
def isSuspiciousURL (url : String) : Bool :=
  if url = "" ∨ url = "about:blank" then true
  else if suspiciousPatterns.any (matchesUrlPattern url) then true
  else if charsStartWith "blob:".toList url.toList ||
          charsStartWith "data:".toList url.toList then true
  else false

/-- Model of the hostname produced by the platform primitive
`new URL(url, window.location.href).hostname`:
* an absolute `http://`/`https://` URL yields its own authority host
  (lower-cased, as the platform normalises it), stopping at `/ : ? #`;
  an empty host models the thrown `TypeError` (`none`);
* `about:` / `blob:` / `data:` / `javascript:` URLs parse with an empty
  hostname;
* anything else is resolved relative to the current page and yields the
  current host. -/
def urlHostname (currentHost url : String) : Option (List Char) :=
  let u := url.toList
  if charsStartWith "http://".toList u || charsStartWith "https://".toList u then
    let rest := if charsStartWith "http://".toList u then u.drop 7 else u.drop 8
    let host := rest.takeWhile (fun c => c != '/' && c != ':' && c != '?' && c != '#')
    if host.isEmpty then none else some (lowerChars host)
  else if charsStartWith "about:".toList u || charsStartWith "blob:".toList u ||
          charsStartWith "data:".toList u || charsStartWith "javascript:".toList u then
    some []
  else
    some (lowerChars currentHost.toList)

/-- The `whitelistedDomains` array of `isWhitelistedVideoURL`. -/
def whitelistedDomains : List String :=
  ["vidsrc.cc", "vidsrc.to", "vidsrc.me", "vidsrc.net", "vidsrc.xyz"]

/-- Predicate `isWhitelistedVideoURL`: parse the URL (relative to the current page)
and accept exactly the whitelisted domains and their subdomains; a parse
failure yields `false` (the `catch` branch). -/
def isWhitelistedVideoURL (currentHost url : String) : Bool :=
  match urlHostname currentHost url with
  | none => false
  | some hostname =>
      whitelistedDomains.any
        (fun d => hostname = d.toList || charsEndWith ('.' :: d.toList) hostname)

/-- The inert object built by `createFakeWindow`: `closed` is `true` and
every method is a no-op, so only the `closed` flag is observable state. -/
structure FakeWindow where
  closed : Bool
deriving DecidableEq, Repr

/-- Function `createFakeWindow` returns the inert window with `closed: true`. -/
def createFakeWindow : FakeWindow :=
  { closed := true }

/-- Result of one call of the wrapped `window.open`. -/
inductive OpenResult where
  | blocked (w : FakeWindow)
  | passedThrough
deriving DecidableEq, Repr

/-- The wrapped `window.open` installed by `overrideWindowOpen`, returning
the result of the call together with the number of `state.blockedCount`
increments it performs.  Rules in source order:
1. empty / `about:blank` URLs are blocked;
2. `isSuspiciousURL` matches are blocked;
3. within `timing.suspiciousWindow` ms of the last recorded interaction,
   everything but whitelisted video URLs is blocked;
4. an URL whose host differs from the current host and is not whitelisted
   is blocked, and an unparsable URL is blocked (the `catch`);
otherwise the call passes through to the saved original `window.open`. -/
def windowOpenWrapper (currentHost : String) (lastInteractionTime : Int)
    (suspiciousWindow : Int) (now : Int) (url : String) : OpenResult × Nat :=
  if url = "" ∨ url = "about:blank" then
    (.blocked createFakeWindow, 1)
  else if isSuspiciousURL url then
    (.blocked createFakeWindow, 1)
  else if now - lastInteractionTime < suspiciousWindow ∧
          isWhitelistedVideoURL currentHost url = false then
    (.blocked createFakeWindow, 1)
  else
    match urlHostname currentHost url with
    | some targetHost =>
        if targetHost ≠ lowerChars currentHost.toList ∧
            isWhitelistedVideoURL currentHost url = false then
          (.blocked createFakeWindow, 1)
        else
          (.passedThrough, 0)
    | none => (.blocked createFakeWindow, 1)

end AdBlocker

namespace HLSPlayer

/-- Constant `MAX_RETRIES` from the `Hls.Events.ERROR` handler of `HLSPlayer.tsx`
(line 654). -/
def MAX_RETRIES : Nat := 4

/-- The fixed `setTimeout` delay before `hls.startLoad()` is reissued
(line 671). -/
def RETRY_DELAY_MS : Nat := 1000

/-- The part of the player state the network-error branch touches:
the `networkRetries` counter and the `error` / `isLoading` UI state. -/
structure RetryState where
  networkRetries : Nat
  errorMessage : Option String
  isLoading : Bool
deriving DecidableEq, Repr

/-- Recovery action taken by the handler on a fatal network error. -/
inductive RecoveryAction where
  | scheduleStartLoad (delayMs : Nat)
  | surfaceError (msg : String)
deriving DecidableEq, Repr

/-- State before any error: no error surfaced, loading spinner up. -/
def initRetryState : RetryState where
  networkRetries := 0
  errorMessage := none
  isLoading := true

/-- One fatal `NETWORK_ERROR` event through the handler (lines 666-676):
below the budget, bump the retry counter and schedule `startLoad` after the
fixed delay; at the budget, surface the terminal error and stop loading. -/
def onFatalNetworkError (s : RetryState) : RetryState × RecoveryAction :=
  if s.networkRetries < MAX_RETRIES then
    ({ s with networkRetries := s.networkRetries + 1 },
     .scheduleStartLoad RETRY_DELAY_MS)
  else
    ({ s with errorMessage := some "Network error - please retry", isLoading := false },
     .surfaceError "Network error - please retry")

/-- The state after `n` consecutive fatal network errors (every fetch
failing fatally, with no intervening success). -/
def afterNErrors : Nat → RetryState
  | 0 => initRetryState
  | n + 1 => (onFatalNetworkError (afterNErrors n)).1

end HLSPlayer

namespace ClickShield

/-! ### Helper lemmas about the trust gate -/

/-- Both timing profiles put the very-low-trust floor (15) at or below the
blocking ceiling. -/
theorem timingsFor_maxTrust_ge15 (cfg : ClickShieldConfig) :
    15 ≤ (timingsFor cfg).maxTrustForBlocking := by
  cases h : cfg.isMobile <;>
    simp [timingsFor, h, desktopTimings, mobileTimings]

/-- When the gate is enabled and trust is below the very-low-trust floor,
`shouldBlockClick` blocks: every rule before RULE 6 either blocks or falls
through, and RULE 6 then blocks unconditionally. -/
theorem shouldBlockClick_of_lowTrust (cfg : ClickShieldConfig)
    (s : ClickShieldState) (now : Int) (rand : ℚ)
    (henabled : cfg.enabled = true) (htrust : s.trustLevel < 15) :
    shouldBlockClick cfg s now rand = true := by
  have hmax := timingsFor_maxTrust_ge15 cfg
  unfold shouldBlockClick
  rw [if_neg (show ¬(cfg.enabled = false) by simp [henabled])]
  split_ifs <;> first | rfl | omega

/-- Every `handleClick` increments `totalClicks`, on both branches. -/
theorem handleClick_totalClicks (cfg : ClickShieldConfig)
    (s : ClickShieldState) (now nowDecide : Int) (rand : ℚ) :
    (handleClick cfg s now nowDecide rand).1.totalClicks = s.totalClicks + 1 := by
  simp only [handleClick]
  split <;> rfl

/-- Every `handleClick` overwrites `lastClickTime` with its own clock read on both
branches. -/
theorem handleClick_lastClickTime (cfg : ClickShieldConfig)
    (s : ClickShieldState) (now nowDecide : Int) (rand : ℚ) :
    (handleClick cfg s now nowDecide rand).1.lastClickTime = now := by
  simp only [handleClick]
  split <;> rfl

/-- The trust level after `handleClick`: unchanged on block, raised by the
clamped increment on allow. -/
theorem handleClick_trustLevel (cfg : ClickShieldConfig)
    (s : ClickShieldState) (now nowDecide : Int) (rand : ℚ) :
    (handleClick cfg s now nowDecide rand).1.trustLevel =
      if ((handleClick cfg s now nowDecide rand).2).shouldBlock then s.trustLevel
      else min 100 (s.trustLevel + (timingsFor cfg).trustIncrement) := by
  simp only [handleClick]
  split <;> rfl

/-- The decision reported by `handleClick` is `shouldBlockClick` evaluated on
the state whose click count and `lastClickTime` were already updated. -/
theorem handleClick_shouldBlock (cfg : ClickShieldConfig)
    (s : ClickShieldState) (now nowDecide : Int) (rand : ℚ) :
    ((handleClick cfg s now nowDecide rand).2).shouldBlock =
      shouldBlockClick cfg
        { s with totalClicks := s.totalClicks + 1, lastClickTime := now }
        nowDecide rand := by
  simp only [handleClick]
  split <;> simp_all

/-- Click counters after a `handleClick` run: total clicks advance by the
number of clicks. -/
theorem runClicks_totalClicks (cfg : ClickShieldConfig) (cs : List ClickInput) :
    ∀ s : ClickShieldState,
      (runClicks cfg s cs).totalClicks = s.totalClicks + cs.length := by
  induction cs with
  | nil => intro s; simp [runClicks]
  | cons c cs ih =>
      intro s
      simp only [runClicks, List.foldl_cons, List.length_cons] at *
      rw [ih, handleClick_totalClicks]
      omega

/-- Invariant `totalClicks = blockedClicks + allowedClicks` is preserved by any
`handleClick` run. -/
theorem runClicks_counter_inv (cfg : ClickShieldConfig) (cs : List ClickInput) :
    ∀ s : ClickShieldState,
      s.totalClicks = s.blockedClicks + s.allowedClicks →
      (runClicks cfg s cs).totalClicks =
        (runClicks cfg s cs).blockedClicks + (runClicks cfg s cs).allowedClicks := by
  induction cs with
  | nil => intro s h; simpa [runClicks] using h
  | cons c cs ih =>
      intro s h
      simp only [runClicks, List.foldl_cons] at *
      apply ih
      simp only [handleClick]
      split <;> simp <;> omega

/-- One `handleClick` neither lowers trust (when trust is in range) nor lets
it escape the 0..100 band. -/
theorem handleClick_trust_step (cfg : ClickShieldConfig)
    (s : ClickShieldState) (now nowDecide : Int) (rand : ℚ)
    (h : s.trustLevel ≤ 100) :
    s.trustLevel ≤ (handleClick cfg s now nowDecide rand).1.trustLevel ∧
    (handleClick cfg s now nowDecide rand).1.trustLevel ≤ 100 := by
  rw [handleClick_trustLevel]
  split <;> omega

/-! ### Claim theorems: trust gate -/

/-- Claim C1: for every state and any prior trust value, `onPopupDetected`
hard-resets the trust score to 0, and every `shouldBlockClick` (the
`decide()` of the spec) evaluated on the resulting state before `paranoiaUntil` has
elapsed returns a block, whatever the random draw. -/
theorem popupDetected_resets_trust_and_blocks (cfg : ClickShieldConfig)
    (s : ClickShieldState) (now : Int) (henabled : cfg.enabled = true) :
    (onPopupDetected cfg s now).trustLevel = 0 ∧
    ∀ (later : Int) (rand : ℚ),
      later < (onPopupDetected cfg s now).paranoiaUntil →
      shouldBlockClick cfg (onPopupDetected cfg s now) later rand = true := by
  refine ⟨rfl, fun later rand _ => ?_⟩
  exact shouldBlockClick_of_lowTrust cfg _ later rand henabled
    (by simp [onPopupDetected])

/-- Witness for C1 at a concrete desktop shield: a popup at t = 100000 forces
a block at t = 120000 (inside the 45 s window). -/
theorem popupDetected_resets_trust_and_blocks_witness :
    shouldBlockClick { enabled := true, isMobile := false }
      (onPopupDetected { enabled := true, isMobile := false } (initState 0) 100000)
      120000 (1 / 2 : ℚ) = true :=
  (popupDetected_resets_trust_and_blocks
      { enabled := true, isMobile := false } (initState 0) 100000 rfl).2
    120000 (1 / 2 : ℚ) (by decide)

/-- Claim C4 counterexample: `onIframeLoad` does not reset the trust score.
On a state with trust 50, the claimed conjunction (interaction count reset,
trust reset, load timestamped) is false, because trust stays 50. -/
theorem onIframeLoad_cex :
    ¬ ((onIframeLoad { initState 0 with trustLevel := 50 } 99999).totalClicks = 0 ∧
       (onIframeLoad { initState 0 with trustLevel := 50 } 99999).trustLevel = 0 ∧
       (onIframeLoad { initState 0 with trustLevel := 50 } 99999).iframeLoadTime = 99999) := by
  decide

/-- Claim C4 (amended): `onIframeLoad` resets the interaction count and the
user-interacted flag and timestamps the surface load, for every prior state;
the trust score (and every other field) is left unchanged. -/
theorem onIframeLoad_spec (s : ClickShieldState) (now : Int) :
    (onIframeLoad s now).iframeLoadTime = now ∧
    (onIframeLoad s now).totalClicks = 0 ∧
    (onIframeLoad s now).userHasInteractedWithVideo = false ∧
    (onIframeLoad s now).trustLevel = s.trustLevel ∧
    (onIframeLoad s now).pageLoadTime = s.pageLoadTime ∧
    (onIframeLoad s now).lastClickTime = s.lastClickTime ∧
    (onIframeLoad s now).lastPopupDetectedTime = s.lastPopupDetectedTime ∧
    (onIframeLoad s now).paranoiaUntil = s.paranoiaUntil ∧
    (onIframeLoad s now).blockedClicks = s.blockedClicks ∧
    (onIframeLoad s now).allowedClicks = s.allowedClicks :=
  ⟨rfl, rfl, rfl, rfl, rfl, rfl, rfl, rfl, rfl, rfl⟩

/-- Claim C5 (code bug, evaluated at the failing input): on a fresh desktop
shield the very first click is suppressed, yet `handleClick` has already
advanced `lastClickTime` from 0 to the click time — the suppressed
interaction advances the inter-click-spacing timestamp, contradicting the
spec invariant.  The last conjunct shows the systemic consequence: because
`lastClickTime` is overwritten before `shouldBlockClick` runs, RULE 4
compares the click against itself, so even a fully-trusted click (trust 100,
all grace periods and the first-N threshold long past) is still blocked. -/
theorem suppressed_click_advances_lastClickTime :
    ((handleClick { enabled := true, isMobile := false } (initState 0) 10 10 0).2).shouldBlock
        = true ∧
    (initState 0).lastClickTime = 0 ∧
    ((handleClick { enabled := true, isMobile := false } (initState 0) 10 10 0).1).lastClickTime
        = 10 ∧
    ((handleClick { enabled := true, isMobile := false }
        { initState 0 with totalClicks := 100, trustLevel := 100 }
        100000 100000 (1 / 2 : ℚ)).2).shouldBlock = true := by
  refine ⟨by decide, by decide, by decide, ?_⟩
  decide

/-- Claim C9 counterexample: a popup detection can move the end of the
suppression window earlier.  `enterParanoia` at t = 0 (default duration
1.5 × 45000 = 67500) is followed by `onPopupDetected` at t = 1000, which
rewrites `paranoiaUntil` to 1000 + 45000 = 46000 < 67500. -/
theorem paranoiaUntil_shrinks_cex :
    (onPopupDetected { enabled := true, isMobile := false }
        (enterParanoia { enabled := true, isMobile := false } (initState 0) none 0)
        1000).paranoiaUntil
      < (enterParanoia { enabled := true, isMobile := false }
          (initState 0) none 0).paranoiaUntil := by
  decide

/-- Claim C9 (amended): each `onPopupDetected` sets `paranoiaUntil` to the
detection time plus the configured window, so across `onPopupDetected` calls
at non-decreasing wall-clock times the window end is non-decreasing (and
strictly increasing for strictly later detections); but no maximum is taken
with the previous value, so a detection whose window is shorter than the
remainder of an earlier one (e.g. `onPopupDetected` after `enterParanoia`)
can move the end earlier. -/
theorem paranoiaUntil_popup_monotone (cfg : ClickShieldConfig)
    (s t : ClickShieldState) (now later : Int) :
    (onPopupDetected cfg s now).paranoiaUntil
        = now + (timingsFor cfg).afterPopupReblock ∧
    (now ≤ later →
      (onPopupDetected cfg s now).paranoiaUntil
        ≤ (onPopupDetected cfg t later).paranoiaUntil) ∧
    (now < later →
      (onPopupDetected cfg s now).paranoiaUntil
        < (onPopupDetected cfg t later).paranoiaUntil) := by
  refine ⟨rfl, fun h => ?_, fun h => ?_⟩ <;> simp only [onPopupDetected] <;> omega

/-- Witness for C9 (amended): two desktop popup detections at t = 0 and
t = 5 give strictly increasing window ends. -/
theorem paranoiaUntil_popup_monotone_witness :
    (onPopupDetected { enabled := true, isMobile := false } (initState 0) 0).paranoiaUntil
      < (onPopupDetected { enabled := true, isMobile := false } (initState 0) 5).paranoiaUntil :=
  (paranoiaUntil_popup_monotone { enabled := true, isMobile := false }
      (initState 0) (initState 0) 0 5).2.2 (by decide)

/-- Claim C10: every `handleClick` call increments `totalClicks` by exactly
one and exactly one of `blockedClicks` / `allowedClicks` by exactly one,
`blockedClicks` exactly when the returned decision blocks; hence after any
sequence of `handleClick` calls from construction,
`totalClicks = blockedClicks + allowedClicks`. -/
theorem handleClick_counters (cfg : ClickShieldConfig) :
    (∀ (s : ClickShieldState) (now nowDecide : Int) (rand : ℚ),
      (handleClick cfg s now nowDecide rand).1.totalClicks = s.totalClicks + 1 ∧
      (handleClick cfg s now nowDecide rand).1.blockedClicks =
        s.blockedClicks +
          (if ((handleClick cfg s now nowDecide rand).2).shouldBlock then 1 else 0) ∧
      (handleClick cfg s now nowDecide rand).1.allowedClicks =
        s.allowedClicks +
          (if ((handleClick cfg s now nowDecide rand).2).shouldBlock then 0 else 1)) ∧
    (∀ (constructedAt : Int) (cs : List ClickInput),
      (runClicks cfg (initState constructedAt) cs).totalClicks =
        (runClicks cfg (initState constructedAt) cs).blockedClicks +
        (runClicks cfg (initState constructedAt) cs).allowedClicks) := by
  constructor
  · intro s now nowDecide rand
    refine ⟨handleClick_totalClicks cfg s now nowDecide rand, ?_, ?_⟩ <;>
      simp only [handleClick] <;> split <;> simp
  · intro constructedAt cs
    exact runClicks_counter_inv cfg cs (initState constructedAt) rfl

/-- Claim C2: on an allowed click, trust rises by exactly the fixed
per-click increment clamped at 100; across any `handleClick`-only sequence
(in particular any accepted-interaction sequence, there being no intervening
`onPopupDetected`) trust is non-decreasing and stays within 0..100 (the
lower bound is inherent in the `Nat` carrier, as in the source trust never
goes below 0); every API operation keeps trust within 0..100; and an
accepted click is the only operation that ever increases trust. -/
theorem trust_monotone_bounded (cfg : ClickShieldConfig) :
    (∀ (s : ClickShieldState) (now nowDecide : Int) (rand : ℚ),
      ((handleClick cfg s now nowDecide rand).2).shouldBlock = false →
      (handleClick cfg s now nowDecide rand).1.trustLevel
        = min 100 (s.trustLevel + (timingsFor cfg).trustIncrement)) ∧
    (∀ (s : ClickShieldState) (op : Op),
      s.trustLevel ≤ 100 → (applyOp cfg s op).trustLevel ≤ 100) ∧
    (∀ (s : ClickShieldState) (cs : List ClickInput),
      s.trustLevel ≤ 100 →
      s.trustLevel ≤ (runClicks cfg s cs).trustLevel ∧
      (runClicks cfg s cs).trustLevel ≤ 100) ∧
    (∀ (s : ClickShieldState) (op : Op),
      s.trustLevel < (applyOp cfg s op).trustLevel →
      ∃ c : ClickInput, op = Op.click c ∧
        ((handleClick cfg s c.now c.nowDecide c.rand).2).shouldBlock = false) := by
  have hstep := handleClick_trust_step cfg
  refine ⟨?_, ?_, ?_, ?_⟩
  · intro s now nowDecide rand h
    rw [handleClick_trustLevel, h]
    simp
  · intro s op h
    cases op with
    | click c => exact (hstep s c.now c.nowDecide c.rand h).2
    | iframeLoad now => simpa [applyOp, onIframeLoad] using h
    | popupDetected now => simp [applyOp, onPopupDetected]
    | paranoia d now => simp [applyOp, enterParanoia]
    | shieldOn => simpa [applyOp, enableShield] using h
    | shieldOff => simpa [applyOp, disableShield] using h
    | reenable =>
        simp only [applyOp, reenableShield]
        split <;> simpa using h
  · intro s cs
    induction cs generalizing s with
    | nil => intro h; exact ⟨le_refl _, h⟩
    | cons c cs ih =>
        intro h
        simp only [runClicks, List.foldl_cons] at *
        have h1 := hstep s c.now c.nowDecide c.rand h
        have h2 := ih ((handleClick cfg s c.now c.nowDecide c.rand).1) h1.2
        exact ⟨le_trans h1.1 h2.1, h2.2⟩
  · intro s op h
    cases op with
    | click c =>
        refine ⟨c, rfl, ?_⟩
        cases hb : ((handleClick cfg s c.now c.nowDecide c.rand).2).shouldBlock with
        | true =>
            rw [applyOp, handleClick_trustLevel, hb] at h
            simp at h
        | false => rfl
    | iframeLoad now => simp [applyOp, onIframeLoad] at h
    | popupDetected now => simp [applyOp, onPopupDetected] at h
    | paranoia d now => simp [applyOp, enterParanoia] at h
    | shieldOn => simp [applyOp, enableShield] at h
    | shieldOff => simp [applyOp, disableShield] at h
    | reenable =>
        simp only [applyOp, reenableShield] at h
        split at h <;> simp at h

/-- Witness for C2 at a concrete run: a fresh desktop shield and one click
leave trust no lower than it started. -/
theorem trust_monotone_bounded_witness :
    (initState 0).trustLevel ≤
      (runClicks { enabled := true, isMobile := false } (initState 0)
        [{ now := 10, nowDecide := 10, rand := 0 }]).trustLevel :=
  ((trust_monotone_bounded { enabled := true, isMobile := false }).2.2.1
    (initState 0) [{ now := 10, nowDecide := 10, rand := 0 }] (by decide)).1

/-- Claim C3: after a fresh `onIframeLoad`, each of the first
`firstClicksToBlock` `handleClick` calls reports a block (6 on desktop, 8 on
mobile), for any timings and random draws of the earlier clicks.  The first
N − 1 are blocked by the first-N rule (RULE 3 checks the already-incremented
count); the N-th is blocked by the inter-click-spacing rule (RULE 4),
because `handleClick` has just overwritten `lastClickTime` with its own
clock read — whence the side conditions that the clock read of the click is
positive and the two reads of one synchronous call lie within the minimum
inter-click spacing, both true of any real execution. -/
theorem firstN_clicks_blocked :
    (∀ (cfg : ClickShieldConfig) (s : ClickShieldState) (tLoad : Int)
        (cs : List ClickInput) (c : ClickInput),
      cfg.enabled = true →
      cs.length + 1 ≤ (timingsFor cfg).firstClicksToBlock →
      0 < c.now →
      c.nowDecide - c.now < (timingsFor cfg).minTimeBetweenClicks →
      ((handleClick cfg (runClicks cfg (onIframeLoad s tLoad) cs)
          c.now c.nowDecide c.rand).2).shouldBlock = true) ∧
    desktopTimings.firstClicksToBlock = 6 ∧
    mobileTimings.firstClicksToBlock = 8 := by
  refine ⟨?_, rfl, rfl⟩
  intro cfg s tLoad cs c henabled hlen hpos hgap
  rw [handleClick_shouldBlock]
  have htc : (runClicks cfg (onIframeLoad s tLoad) cs).totalClicks = cs.length := by
    rw [runClicks_totalClicks]
    simp [onIframeLoad]
  unfold shouldBlockClick
  rw [if_neg (show ¬(cfg.enabled = false) by simp [henabled])]
  simp only [htc]
  split_ifs <;> first | rfl | omega

/-- Witness for C3 on desktop: five clicks after an iframe load, the sixth
click is still blocked. -/
theorem firstN_clicks_blocked_witness :
    ((handleClick { enabled := true, isMobile := false }
        (runClicks { enabled := true, isMobile := false }
          (onIframeLoad (initState 0) 0)
          [{ now := 1, nowDecide := 1, rand := 0 },
           { now := 2, nowDecide := 2, rand := 0 },
           { now := 3, nowDecide := 3, rand := 0 },
           { now := 4, nowDecide := 4, rand := 0 },
           { now := 5, nowDecide := 5, rand := 0 }])
        10000 10000 0).2).shouldBlock = true :=
  firstN_clicks_blocked.1 { enabled := true, isMobile := false } (initState 0) 0
    [{ now := 1, nowDecide := 1, rand := 0 },
     { now := 2, nowDecide := 2, rand := 0 },
     { now := 3, nowDecide := 3, rand := 0 },
     { now := 4, nowDecide := 4, rand := 0 },
     { now := 5, nowDecide := 5, rand := 0 }]
    { now := 10000, nowDecide := 10000, rand := 0 }
    rfl (by decide) (by decide) (by decide)

/-- Claim C6: when the hard gates no longer apply (gate enabled, both
load-grace periods elapsed, click count at or past the first-N threshold,
inter-click spacing satisfied, no recent-popup window active),
`shouldBlockClick` blocks unconditionally below the low-trust floor 15,
blocks exactly when the random draw falls below the trust-weighted threshold
`(1 − trust/maxTrustForBlocking) · ½` for trust between floor and ceiling —
a threshold strictly decreasing as trust rises — and always allows at or
above the `maxTrustForBlocking` ceiling. -/
theorem trust_gate_rule6 (cfg : ClickShieldConfig) (s : ClickShieldState)
    (now : Int) (rand : ℚ)
    (henabled : cfg.enabled = true)
    (hpage : (timingsFor cfg).pageLoadGracePeriod ≤ now - s.pageLoadTime)
    (hframe : (timingsFor cfg).iframeLoadGracePeriod ≤ now - s.iframeLoadTime)
    (hcount : (timingsFor cfg).firstClicksToBlock ≤ s.totalClicks)
    (hspacing : ¬ (0 < s.lastClickTime ∧
        now - s.lastClickTime < (timingsFor cfg).minTimeBetweenClicks))
    (hpopup : ¬ (0 < s.lastPopupDetectedTime ∧
        now - s.lastPopupDetectedTime < (timingsFor cfg).afterPopupReblock)) :
    (s.trustLevel < 15 → shouldBlockClick cfg s now rand = true) ∧
    (15 ≤ s.trustLevel → s.trustLevel < (timingsFor cfg).maxTrustForBlocking →
      (shouldBlockClick cfg s now rand = true ↔
        rand < blockProbability (timingsFor cfg) s.trustLevel * (1 / 2 : ℚ))) ∧
    ((timingsFor cfg).maxTrustForBlocking ≤ s.trustLevel →
      shouldBlockClick cfg s now rand = false) ∧
    (∀ t1 t2 : Nat, t1 < t2 →
      blockProbability (timingsFor cfg) t2 * (1 / 2 : ℚ)
        < blockProbability (timingsFor cfg) t1 * (1 / 2 : ℚ)) := by
  have hred : shouldBlockClick cfg s now rand =
      (if s.trustLevel < (timingsFor cfg).maxTrustForBlocking then
        if s.trustLevel < 15 then true
        else if rand < blockProbability (timingsFor cfg) s.trustLevel * (1 / 2 : ℚ)
          then true else false
      else false) := by
    unfold shouldBlockClick
    rw [if_neg (show ¬(cfg.enabled = false) by simp [henabled]),
        if_neg (by omega), if_neg (by omega), if_neg (by omega),
        if_neg hspacing, if_neg hpopup]
  have hmpos : (0 : ℚ) < ((timingsFor cfg).maxTrustForBlocking : ℚ) := by
    have : 0 < (timingsFor cfg).maxTrustForBlocking := by
      have := timingsFor_maxTrust_ge15 cfg
      omega
    exact_mod_cast this
  have hmax := timingsFor_maxTrust_ge15 cfg
  refine ⟨?_, ?_, ?_, ?_⟩
  · intro hlow
    rw [hred, if_pos (by omega), if_pos hlow]
  · intro hfloor hceil
    rw [hred, if_pos hceil, if_neg (by omega)]
    constructor
    · intro h
      by_contra hc
      rw [if_neg hc] at h
      exact Bool.false_ne_true h
    · intro h
      rw [if_pos h]
  · intro hceil
    rw [hred, if_neg (by omega)]
  · intro t1 t2 hlt
    unfold blockProbability
    have hdiv : (t1 : ℚ) / ((timingsFor cfg).maxTrustForBlocking : ℚ)
        < (t2 : ℚ) / ((timingsFor cfg).maxTrustForBlocking : ℚ) := by
      gcongr
    linarith

/-- Witness for C6 on desktop: with all hard gates passed and trust at the
ceiling (60), the gate deterministically allows. -/
theorem trust_gate_rule6_witness :
    shouldBlockClick { enabled := true, isMobile := false }
      { initState (-10000) with totalClicks := 10, trustLevel := 60 }
      0 (1 / 4 : ℚ) = false :=
  (trust_gate_rule6 { enabled := true, isMobile := false }
      { initState (-10000) with totalClicks := 10, trustLevel := 60 }
      0 (1 / 4 : ℚ) rfl (by decide) (by decide) (by decide) (by decide)
      (by decide)).2.2.1 (by decide)

end ClickShield

namespace AdBlocker

/-! ### Helper lemmas about the window-open wrapper -/

/-- Empty and `about:blank` URLs are suspicious (first branch of
`isSuspiciousURL`). -/
theorem isSuspiciousURL_of_blank (url : String)
    (h : url = "" ∨ url = "about:blank") : isSuspiciousURL url = true := by
  unfold isSuspiciousURL
  rw [if_pos h]

/-- A whitelisted URL necessarily parsed to some hostname. -/
theorem urlHostname_of_whitelisted (currentHost url : String)
    (h : isWhitelistedVideoURL currentHost url = true) :
    ∃ host, urlHostname currentHost url = some host := by
  unfold isWhitelistedVideoURL at h
  cases hh : urlHostname currentHost url with
  | none => rw [hh] at h; simp at h
  | some host => exact ⟨host, rfl⟩

/-! ### Claim theorems: window-open wrapper -/

/-- Claim C7 counterexample: an allow-listed destination does not always
pass through unchanged.  `https://vidsrc.cc/download` is on the allow-listed
`vidsrc.cc` domain, yet the wrapper blocks it (and counts one blocked
attempt) because the path matches the `download` block-list signature —
and this happens outside the post-gesture timing window, so the block-list
takes precedence over the allow-list. -/
theorem windowOpen_allowlisted_blocked_cex :
    isWhitelistedVideoURL "streamhub.example" "https://vidsrc.cc/download" = true ∧
    windowOpenWrapper "streamhub.example" 0 200 100000 "https://vidsrc.cc/download"
      = (OpenResult.blocked createFakeWindow, 1) := by
  refine ⟨by decide, by decide⟩

/-- Claim C7 (amended): every call of the wrapped `window.open` either
blocks — returning the inert fake window and incrementing the blocked
counter by exactly one — or passes through with no increment; block-listed
destinations (empty / `about:blank`, ad/betting/download signatures,
`blob:`/`data:`), destinations violating the post-gesture timing window
that are not allow-listed, and unparsable URLs always block; an allow-listed
destination passes through unchanged provided it matches no block-list
signature (block-list signatures take precedence over the allow-list); and
the fake window is inert (`closed = true`, all methods no-ops). -/
theorem windowOpen_blocking (currentHost : String)
    (lastInteractionTime suspiciousWindow now : Int) (url : String) :
    (windowOpenWrapper currentHost lastInteractionTime suspiciousWindow now url
        = (OpenResult.blocked createFakeWindow, 1) ∨
     windowOpenWrapper currentHost lastInteractionTime suspiciousWindow now url
        = (OpenResult.passedThrough, 0)) ∧
    (isSuspiciousURL url = true →
      windowOpenWrapper currentHost lastInteractionTime suspiciousWindow now url
        = (OpenResult.blocked createFakeWindow, 1)) ∧
    (now - lastInteractionTime < suspiciousWindow →
      isWhitelistedVideoURL currentHost url = false →
      windowOpenWrapper currentHost lastInteractionTime suspiciousWindow now url
        = (OpenResult.blocked createFakeWindow, 1)) ∧
    (urlHostname currentHost url = none →
      windowOpenWrapper currentHost lastInteractionTime suspiciousWindow now url
        = (OpenResult.blocked createFakeWindow, 1)) ∧
    (isWhitelistedVideoURL currentHost url = true →
      isSuspiciousURL url = false →
      windowOpenWrapper currentHost lastInteractionTime suspiciousWindow now url
        = (OpenResult.passedThrough, 0)) ∧
    createFakeWindow.closed = true := by
  refine ⟨?_, ?_, ?_, ?_, ?_, rfl⟩
  · unfold windowOpenWrapper
    split_ifs <;> try exact Or.inl rfl
    split
    · split_ifs
      · exact Or.inl rfl
      · exact Or.inr rfl
    · exact Or.inl rfl
  · intro hsusp
    unfold windowOpenWrapper
    split_ifs <;> rfl
  · intro htime hwhite
    unfold windowOpenWrapper
    split_ifs with h1 h2 h3 <;> try rfl
    exact absurd ⟨htime, hwhite⟩ h3
  · intro hnone
    unfold windowOpenWrapper
    split_ifs <;> try rfl
    simp only [hnone]
  · intro hwhite hsusp
    have hne : ¬(url = "" ∨ url = "about:blank") := fun h =>
      absurd (isSuspiciousURL_of_blank url h) (by simp [hsusp])
    obtain ⟨host, hh⟩ := urlHostname_of_whitelisted currentHost url hwhite
    unfold windowOpenWrapper
    rw [if_neg hne, if_neg (by simp [hsusp]), if_neg (by simp [hwhite])]
    simp only [hh]
    rw [if_neg (by simp [hwhite])]

/-- Witness for C7 (amended): a block-listed destination is blocked with one
counter increment, while a clean allow-listed destination passes through. -/
theorem windowOpen_blocking_witness :
    windowOpenWrapper "streamhub.example" 0 200 100000 "https://x.example/ads.js"
        = (OpenResult.blocked createFakeWindow, 1) ∧
    windowOpenWrapper "streamhub.example" 0 200 100000 "https://vidsrc.cc/v2/embed"
        = (OpenResult.passedThrough, 0) :=
  ⟨(windowOpen_blocking "streamhub.example" 0 200 100000
      "https://x.example/ads.js").2.1 (by decide),
   (windowOpen_blocking "streamhub.example" 0 200 100000
      "https://vidsrc.cc/v2/embed").2.2.2.2.1 (by decide) (by decide)⟩

end AdBlocker

namespace HLSPlayer

/-! ### Helper lemmas and claim theorem: bounded network retries -/

/-- The retry counter after `n` consecutive fatal network errors is `n`,
saturating at the budget. -/
theorem afterNErrors_networkRetries (n : Nat) :
    (afterNErrors n).networkRetries = min n MAX_RETRIES := by
  induction n with
  | zero => rfl
  | succ n ih =>
      simp only [afterNErrors, onFatalNetworkError, MAX_RETRIES] at *
      split_ifs with h <;> simp <;> omega

/-- The terminal error is surfaced exactly once the budget is exhausted:
after `n` fatal network errors the error state is set iff `n` exceeds
`MAX_RETRIES`. -/
theorem afterNErrors_errorIsSome (n : Nat) :
    (afterNErrors n).errorMessage.isSome = decide (MAX_RETRIES < n) := by
  induction n with
  | zero => rfl
  | succ n ih =>
      have hr := afterNErrors_networkRetries n
      simp only [afterNErrors, onFatalNetworkError, MAX_RETRIES] at *
      split_ifs with h <;> simp_all <;> omega

/-- The action taken on the `(n+1)`-th fatal network error: reissue the
load after the fixed delay while inside the budget, surface the terminal
error otherwise. -/
theorem afterNErrors_action (n : Nat) :
    (onFatalNetworkError (afterNErrors n)).2 =
      if n < MAX_RETRIES then RecoveryAction.scheduleStartLoad RETRY_DELAY_MS
      else RecoveryAction.surfaceError "Network error - please retry" := by
  have hr := afterNErrors_networkRetries n
  simp only [onFatalNetworkError, hr, MAX_RETRIES] at *
  split_ifs with h1 h2 <;> first | rfl | (exfalso; omega)

/-- Claim C8: with every fetch failing fatally, the error handler reissues
the load (`startLoad` after the fixed 1000 ms delay) exactly while the retry
count is below `MAX_RETRIES = 4`, the retry count saturates at the budget,
and the session reaches the terminal error state exactly when the budget is
exhausted — on the fifth consecutive fatal network error, not before and not
indefinitely later. -/
theorem retry_budget_exhaustion :
    MAX_RETRIES = 4 ∧
    (∀ n, (afterNErrors n).networkRetries = min n MAX_RETRIES) ∧
    (∀ n, (afterNErrors n).errorMessage.isSome = decide (MAX_RETRIES < n)) ∧
    (∀ n, (onFatalNetworkError (afterNErrors n)).2 =
      if n < MAX_RETRIES then RecoveryAction.scheduleStartLoad RETRY_DELAY_MS
      else RecoveryAction.surfaceError "Network error - please retry") :=
  ⟨rfl, afterNErrors_networkRetries, afterNErrors_errorIsSome, afterNErrors_action⟩

end HLSPlayer

